import Mathlib

/-!
A shallow embedding of `src/converter.py` (the mkv-to-mp4 watcher/converter).

Conventions of the embedding:

* Python strings are Lean `String`s; helpers below model the Python string
  operations used by the source (`str.lower`, `str.endswith`, `in`,
  `str.replace(c, "")`, `str.split(c)`, `int(...)`, `float(...)`, `s * 2`)
  for the ASCII inputs the program deals in.
* Python floats are modelled as `ℚ`.  Every float produced by the source in
  the paths we verify (byte counts divided by the power of two `1048576`,
  `height * 16 / 9`, the decimal bitrate strings) is either exactly
  representable or far enough from a rounding/truncation boundary that the
  rational value and the float value round/truncate identically, so `ℚ` is a
  faithful model on these inputs.  `round(x, 2)` is modelled with Python's
  round-half-to-even; the half-way ties are not reachable from integer byte
  counts in the positions the program divides by, see `round2`.
* Optional values and raised exceptions become `Option` / `Except`.
* The filesystem effects of one conversion attempt are modelled by the
  booleans of `AttemptResult`, describing the post-attempt state of the three
  paths the attempt touches (source, temporary output, final output), under
  the standing assumptions of the single-worker design: the source exists
  when the attempt starts, neither the temporary nor the final output path
  exists beforehand, no other process touches these files during the attempt,
  and the watched paths lie under the watched root (so the `relative_to`
  calls in the progress prints never raise).  The external probe and encoder
  subprocesses are collaborators: one `AttemptEnv` records their observable
  behaviour for the attempt (probe outcome, encoder exit code, the size of
  the temporary file the encoder left behind, the parsed `out_time_ms`
  progress values, and whether the `shutil.move` publish step succeeds when
  attempted).
-/

namespace MkvToMp4

/-- Decidable equality for `Except`, so concrete results of fallible
operations can be checked by evaluation. -/
instance {ε α : Type} [DecidableEq ε] [DecidableEq α] : DecidableEq (Except ε α) := fun a b =>
  match a, b with
  | .error x, .error y =>
    if h : x = y then .isTrue (by rw [h]) else .isFalse (fun hh => h (by cases hh; rfl))
  | .ok x, .ok y =>
    if h : x = y then .isTrue (by rw [h]) else .isFalse (fun hh => h (by cases hh; rfl))
  | .error _, .ok _ => .isFalse (fun hh => by cases hh)
  | .ok _, .error _ => .isFalse (fun hh => by cases hh)

/-- Python truthiness of an optional string: `None` and `""` are falsy. -/
def truthy : Option String → Bool
  | none => false
  | some s => !s.isEmpty

/-- Python `s * 2` on a string: concatenation with itself. -/
def pyStrMul2 (s : String) : String := s ++ s

/-- ASCII lower-casing of one character, as `str.lower` acts on ASCII. -/
def pyLowerChar (c : Char) : Char :=
  if 'A' ≤ c ∧ c ≤ 'Z' then Char.ofNat (c.toNat + 32) else c

/-- Model of `str.lower()` (the source only ever compares ASCII extensions and
resolution specifiers, on which Python's Unicode lower-casing agrees with
the ASCII map). -/
def pyLower (s : String) : String := String.mk (s.data.map pyLowerChar)

/-- Model of `s.endswith(suffixStr)`. -/
def pyEndsWith (s suffixStr : String) : Bool :=
  suffixStr.data.isSuffixOf s.data

/-- Model of `c in s` on a single character. -/
def pyContainsChar (s : String) (c : Char) : Bool := s.data.contains c

/-- Model of `s.replace(c, "")` for a single character: drop every occurrence. -/
def pyRemoveChar (s : String) (c : Char) : String :=
  String.mk (s.data.filter (fun d => d ≠ c))

/-- Model of `s.split(c)` for a single-character separator. -/
def pySplitChar (s : String) (c : Char) : List String :=
  (s.data.splitOn c).map String.mk

/-- Digit run to a number: `some` iff the run is non-empty and all ASCII
digits. -/
def digitsToNat (cs : List Char) : Option Nat :=
  if cs ≠ [] ∧ cs.all Char.isDigit then
    some (cs.foldl (fun a c => a * 10 + (c.toNat - 48)) 0)
  else none

/-- Whitespace stripping as `int()`/`float()` perform on their argument. -/
def stripWS (cs : List Char) : List Char :=
  ((cs.dropWhile Char.isWhitespace).reverse.dropWhile Char.isWhitespace).reverse

/-- Python `int(s)` on the decimal forms the program meets: optional
whitespace, optional sign, ASCII digits.  `none` models the raised
`ValueError`. -/
def pyInt (s : String) : Option Int :=
  match stripWS s.data with
  | '-' :: rest => (digitsToNat rest).map (fun n => -(n : Int))
  | '+' :: rest => (digitsToNat rest).map (fun n => (n : Int))
  | cs => (digitsToNat cs).map (fun n => (n : Int))

/-- Char-level decomposition of a decimal literal into sign, integer-part
value, fraction-part value and fraction length. -/
def decimalParts (cs : List Char) : Option (Bool × Nat × Nat × Nat) :=
  let core : List Char → Option (Nat × Nat × Nat) := fun ds =>
    match ds.splitOn '.' with
    | [a] => (digitsToNat a).map (fun n => (n, 0, 0))
    | [a, b] =>
      match digitsToNat a, digitsToNat b with
      | some n, some f => some (n, f, b.length)
      | _, _ => none
    | _ => none
  match cs with
  | '-' :: rest => (core rest).map (fun x => (true, x))
  | '+' :: rest => (core rest).map (fun x => (false, x))
  | ds => (core ds).map (fun x => (false, x))

/-- Python `float(s)` on plain decimal forms `digits[.digits]` with optional
sign and whitespace (the source only applies it to its own bitrate table
strings such as `"1.5"`, on which this model is exact).  `none` models the
raised `ValueError`. -/
def pyFloat (s : String) : Option ℚ :=
  (decimalParts (stripWS s.data)).map
    (fun p => (if p.1 then -1 else 1) * ((p.2.1 : ℚ) + (p.2.2.1 : ℚ) / (10 : ℚ) ^ p.2.2.2))

/-- Round-half-to-even to an integer, as Python `round` ties. -/
def roundHalfEven (q : ℚ) : ℤ :=
  if q - ⌊q⌋ < 1 / 2 then ⌊q⌋
  else if 1 / 2 < q - ⌊q⌋ then ⌊q⌋ + 1
  else if ⌊q⌋ % 2 = 0 then ⌊q⌋ else ⌊q⌋ + 1

/-- Model of `round(q, 2)`.  (A tie would need `q * 100 - 1/2 ∈ ℤ`; for
`q = bytes / 1048576` with integral `bytes` that needs `25 * bytes ≡ 131072
[MOD 262144]`, whose solutions make `q * 100` land exactly on `k + 1/2` only
for sizes where both roundings still agree on zero-versus-nonzero, the only
property the program reads off this value.) -/
def round2 (q : ℚ) : ℚ := (roundHalfEven (q * 100) : ℚ) / 100

/-! ## FFmpegProgress (`converter.py` lines 15-30) -/

/-- The progress tracker; only the `duration` passed to `__init__` matters
to `update`'s arithmetic (the tqdm bar is a sink). -/
structure FFmpegProgress where
  duration : ℚ

/-- Source `FFmpegProgress.update` (line 24): `progress = (current_time /
self.duration) * 100`, then the bar is set to `progress`.  There is no guard:
a zero duration raises `ZeroDivisionError`, modelled as `.error ()`; otherwise
`.ok` carries the percentage published to the bar. -/
def FFmpegProgress.update (p : FFmpegProgress) (current_time : ℚ) : Except Unit ℚ :=
  if p.duration = 0 then .error ()
  else .ok (current_time / p.duration * 100)

/-! ## Probe (`get_video_info`, lines 74-106) -/

/-- One stream object from the ffprobe JSON (`codec_type`, and for video
streams the integer `width`/`height`). -/
structure StreamInfo where
  codec_type : String
  width : Int
  height : Int

/-- The parsed ffprobe document: the `streams` list and the `format` object's
`duration` (decimal seconds) and `size` (bytes), already through
`float(...)`. -/
structure ProbeData where
  streams : List StreamInfo
  duration : ℚ
  size : ℚ

/-- Observable outcome of running the ffprobe subprocess: its exit code, and
`some` parsed document when `json.loads` and the field accesses succeed
(`none` models unparseable output or missing keys, which raise inside the
`try` of `get_video_info`). -/
structure ProbeResult where
  returncode : Int
  parsed : Option ProbeData

/-- The `video_info` dict built by `get_video_info` on success. -/
structure VideoInfo where
  width : Int
  height : Int
  resolution : String
  duration : ℚ
  size : ℚ

/-- Source `get_video_info` (lines 74-106): `none` on non-zero ffprobe exit, on
unparseable output, or when no stream has `codec_type == "video"`; otherwise
the info record, with `size` converted to MB and rounded to two decimals
(line 102). -/
def get_video_info (r : ProbeResult) : Option VideoInfo :=
  if r.returncode ≠ 0 then none
  else
    match r.parsed with
    | none => none
    | some d =>
      match d.streams.find? (fun s => s.codec_type == "video") with
      | none => none
      | some vs =>
        some { width := vs.width
               height := vs.height
               resolution := toString vs.width ++ "x" ++ toString vs.height
               duration := d.duration
               size := round2 (d.size / (1024 * 1024)) }

/-! ## parse_resolution (lines 108-120) -/

/-- Source `parse_resolution` (lines 108-120).  `.ok none` is the Python `None`
return (no/empty specifier, or a specifier without `p` or `x`); `.error ()`
models the `ValueError` that `int(...)` raises on malformed digits (caught
only by the orchestrator's catch-all).  In the `p` branch the width is
`int(height * 16 / 9)`: float true-division then truncation toward zero,
which `Int.div` reproduces exactly on these magnitudes. -/
def parse_resolution (resolution_str : Option String) : Except Unit (Option (Int × Int)) :=
  match resolution_str with
  | none => .ok none
  | some s =>
    if s.isEmpty then .ok none
    else
      let low := pyLower s
      if pyContainsChar low 'p' then
        match pyInt (pyRemoveChar low 'p') with
        | none => .error ()
        | some h => .ok (some (Int.tdiv (h * 16) 9, h))
      else if pyContainsChar low 'x' then
        match pySplitChar low 'x' with
        | [a, b] =>
          match pyInt a, pyInt b with
          | some w, some h => .ok (some (w, h))
          | _, _ => .error ()
        | _ => .error ()
      else .ok none

/-! ## verify_conversion and get_recommended_bitrate (lines 122-139) -/

/-- Source `verify_conversion` (lines 122-126) applied to the temporary output,
whose presence and byte size the encoder run determines: false when the file
does not exist, else its size must be positive. -/
def verify_conversion : Option Nat → Bool
  | none => false
  | some sz => decide (0 < sz)

/-- Source `get_recommended_bitrate` (lines 128-139).  The `width` (and the fixed
`fps = 30`) enter only the unused `pixels` product in the source; the result
is the height-keyed table. -/
def get_recommended_bitrate (width height : Int) : String :=
  if height ≤ 480 then "1.5M"
  else if height ≤ 720 then "2.5M"
  else if height ≤ 1080 then "4M"
  else "8M"

/-- The buffer-size string computed at line 166:
`f"{int(float(self.maxrate[:-1]) * 2)}M"` — strip the trailing `M`, parse the
decimal, double, truncate toward zero (the values are positive, so floor),
re-append `M`.  (Only ever applied to the four table strings, on which
`pyFloat` succeeds; the `none` fallback is unreachable there.) -/
def derivedBufsize (m : String) : String :=
  match pyFloat (String.mk m.data.dropLast) with
  | some q => toString ⌊q * 2⌋ ++ "M"
  | none => ""

/-! ## Handler state (`__init__`, lines 33-44) -/

/-- The mutable fields of `MKVHandler` that `convert_mkv_to_mp4` reads or
writes.  `maxrate` and `bufsize` are genuinely mutable: line 161-166 assigns
them, so their values persist into later attempts of the same run. -/
structure HandlerState where
  root_dir : String
  target_resolution : Option String
  encoding_preset : String
  crf : Int
  profile : String
  tune : Option String
  maxrate : Option String
  bufsize : Option String

/-- Source `MKVHandler.__init__` (lines 33-44) restricted to its field assignments.
Line 42 is `bufsize or (maxrate * 2 if maxrate else None)`: Python `or`
keyed on truthiness, and `maxrate * 2` is *string repetition* since
argparse delivers `maxrate` as a string. -/
def HandlerState.init (root_dir : String) (target_resolution : Option String)
    (encoding_preset : String) (crf : Int) (profile : String)
    (tune maxrate bufsize : Option String) : HandlerState :=
  { root_dir, target_resolution, encoding_preset, crf, profile, tune, maxrate
    bufsize :=
      if truthy bufsize then bufsize
      else if truthy maxrate then some (pyStrMul2 (maxrate.getD "")) else none }

/-! ## The conversion attempt (`convert_mkv_to_mp4`, lines 141-263) -/

/-- Source `needs_downscale` (lines 153-158): a target pair was parsed and the
source height strictly exceeds the target height. -/
def needsDownscale (target_dims : Option (Int × Int)) (src_height : Int) : Bool :=
  match target_dims with
  | some (_, th) => decide (th < src_height)
  | none => false

/-- The dimensions `get_recommended_bitrate` is called with (lines 162-165):
the target pair when downscaling, else the source pair. -/
def effectiveDims (target_dims : Option (Int × Int)) (info : VideoInfo) : Int × Int :=
  match target_dims with
  | some (tw, th) => if th < info.height then (tw, th) else (info.width, info.height)
  | none => (info.width, info.height)

/-- The plan-bearing part of the ffmpeg command the attempt constructs
(lines 183-215): whether `-c:v copy` was chosen instead of the `libx264`
re-encode block, and the `-maxrate`/`-bufsize`/`-vf scale`/`-tune` values
passed in the re-encode case. -/
structure FfmpegCmd where
  copyVideo : Bool
  maxrate : Option String
  bufsize : Option String
  scale : Option (Int × Int)
  tune : Option String
deriving DecidableEq

/-- The value of `self.maxrate` after lines 160-166: kept when already
truthy, else derived from the bitrate table on the effective dimensions. -/
def planMaxrate (st : HandlerState) (info : VideoInfo) (tdims : Option (Int × Int)) :
    Option String :=
  if truthy st.maxrate then st.maxrate
  else some (get_recommended_bitrate (effectiveDims tdims info).1 (effectiveDims tdims info).2)

/-- The value of `self.bufsize` after lines 160-166: kept when `self.maxrate`
was already truthy, else overwritten with twice the derived bitrate. -/
def planBufsize (st : HandlerState) (info : VideoInfo) (tdims : Option (Int × Int)) :
    Option String :=
  if truthy st.maxrate then st.bufsize
  else some (derivedBufsize
    (get_recommended_bitrate (effectiveDims tdims info).1 (effectiveDims tdims info).2))

/-- The handler state after the mutation of lines 161-166. -/
def planState (st : HandlerState) (info : VideoInfo) (tdims : Option (Int × Int)) :
    HandlerState :=
  { st with maxrate := planMaxrate st info tdims, bufsize := planBufsize st info tdims }

/-- The command constructed at lines 183-215: re-encode iff `needs_downscale
or self.maxrate` (line 192), evaluated after the mutation of lines
160-166; otherwise `-c:v copy` (line 209). -/
def buildCmd (st : HandlerState) (info : VideoInfo) (tdims : Option (Int × Int)) : FfmpegCmd :=
  if needsDownscale tdims info.height || truthy (planMaxrate st info tdims) then
    { copyVideo := false
      maxrate := planMaxrate st info tdims
      bufsize := planBufsize st info tdims
      scale := if needsDownscale tdims info.height then some (effectiveDims tdims info) else none
      tune := if truthy st.tune then st.tune else none }
  else
    { copyVideo := true, maxrate := none, bufsize := none, scale := none, tune := none }

/-- Whether pumping the parsed `out_time_ms` values through
`FFmpegProgress.update` raises (lines 226-233): true exactly when some update
call returns the division-by-zero error. -/
def progressRaises (duration : ℚ) (outTimes : List ℚ) : Bool :=
  outTimes.any (fun t =>
    match FFmpegProgress.update ⟨duration⟩ t with
    | .error _ => true
    | .ok _ => false)

/-- Observable behaviour of the encoder subprocess for one attempt: its exit
code and the temporary output it left (`none` = never created, `some n` =
exists with `n` bytes). -/
structure EncoderRun where
  returncode : Int
  tempSize : Option Nat

/-- The per-attempt environment: probe outcome, encoder behaviour, the
`current_time` values parsed from `out_time_ms=` progress lines (line
230-232), and whether the `shutil.move` publish (line 238) succeeds when it
is attempted. -/
structure AttemptEnv where
  probe : ProbeResult
  encoder : EncoderRun
  outTimes : List ℚ
  moveSucceeds : Bool

/-- How the attempt ended:  `probeFail` is the early `return` at line 150,
`verifyFail` the `else` branch at lines 253-256, `exceptionCaught` the
catch-all handler at lines 258-263, `completed` the full success path. -/
inductive AttemptOutcome where
  | completed
  | probeFail
  | verifyFail
  | exceptionCaught
deriving DecidableEq

/-- Result of one attempt: the handler state afterwards (with any
`maxrate`/`bufsize` mutation), the post-attempt existence of the three files,
the final output's byte size when it exists, the command actually
constructed (`none` when the attempt died before building it), and the
outcome. -/
structure AttemptResult where
  state : HandlerState
  sourceExists : Bool
  tempExists : Bool
  outputExists : Bool
  outputSize : Option Nat
  cmd : Option FfmpegCmd
  outcome : AttemptOutcome

/-- Source `convert_mkv_to_mp4` (lines 141-263), sequentially:

1. probe; `None` info is the early `return` (line 150), touching no file;
2. `parse_resolution` (line 152); a `ValueError` there reaches the catch-all
   with no temp file created yet;
3. the `maxrate`/`bufsize` derivation (lines 160-166) *mutates the handler*
   whenever `self.maxrate` is falsy, using the bitrate table on the effective
   dimensions;
4. the command (lines 183-215): re-encode iff `needs_downscale or
   self.maxrate` (evaluated after the mutation);
5. the progress loop (lines 226-233): every parsed `out_time_ms` value is fed
   to `FFmpegProgress.update`; a zero probe duration makes the first such
   call raise `ZeroDivisionError`, sending the attempt to the catch-all
   (which removes the temporary file if the encoder created it);
6. verification (line 237): exit code 0 and a non-empty temporary file,
   else the `else` branch deletes the temp file if present;
7. publish (line 238): `shutil.move`; a failure reaches the catch-all, which
   deletes the still-present temp file;
8. the size-reduction report (line 244) divides by the probed size in MB; a
   size that rounded to 0 raises `ZeroDivisionError` *after* the publish, so
   the source survives even though the output was published;
9. otherwise `input_path.unlink()` (line 251) deletes the source. -/
def convert_mkv_to_mp4 (st : HandlerState) (env : AttemptEnv) : AttemptResult :=
  match get_video_info env.probe with
  | none =>
    { state := st, sourceExists := true, tempExists := false, outputExists := false
      outputSize := none, cmd := none, outcome := .probeFail }
  | some info =>
    match parse_resolution st.target_resolution with
    | .error _ =>
      { state := st, sourceExists := true, tempExists := false, outputExists := false
        outputSize := none, cmd := none, outcome := .exceptionCaught }
    | .ok target_dims =>
      let st' := planState st info target_dims
      let cmd := buildCmd st info target_dims
      if progressRaises info.duration env.outTimes then
        { state := st', sourceExists := true, tempExists := false, outputExists := false
          outputSize := none, cmd := some cmd, outcome := .exceptionCaught }
      else if decide (env.encoder.returncode = 0) && verify_conversion env.encoder.tempSize then
        if env.moveSucceeds then
          if decide (info.size = 0) then
            { state := st', sourceExists := true, tempExists := false, outputExists := true
              outputSize := env.encoder.tempSize, cmd := some cmd, outcome := .exceptionCaught }
          else
            { state := st', sourceExists := false, tempExists := false, outputExists := true
              outputSize := env.encoder.tempSize, cmd := some cmd, outcome := .completed }
        else
          { state := st', sourceExists := true, tempExists := false, outputExists := false
            outputSize := none, cmd := some cmd, outcome := .exceptionCaught }
      else
        { state := st', sourceExists := true, tempExists := false, outputExists := false
          outputSize := none, cmd := some cmd, outcome := .verifyFail }

/-! ## Event sources (lines 63-68 and 265-271) -/

/-- Source `on_created` (lines 265-271): a non-directory event whose path,
lower-cased, ends in `".mkv"` is converted. -/
def on_created_accepts (is_directory : Bool) (src_path : String) : Bool :=
  !is_directory && pyEndsWith (pyLower src_path) ".mkv"

/-- The startup scan's filter (line 66): `Path.rglob('*.mkv')` matches a file
name against the glob `*.mkv` case-sensitively on a POSIX filesystem, i.e.
exactly the names ending in the literal lowercase `".mkv"`. -/
def scan_glob_matches (filename : String) : Bool :=
  pyEndsWith filename ".mkv"

/-! ## Derived predicates and concrete fixtures -/

/-- The exact condition under which one attempt deletes its source file:
the probe succeeded, the resolution specifier parsed, no progress update
divided by zero, the encoder exited 0 with a verified (existing, non-empty)
temporary output, the publish move succeeded, and the size-reduction report
did not divide by a zero probed size (in MB, rounded to two decimals). -/
def publishAndDeleteCond (st : HandlerState) (env : AttemptEnv) : Bool :=
  match get_video_info env.probe with
  | none => false
  | some info =>
    match parse_resolution st.target_resolution with
    | .error _ => false
    | .ok _ =>
      !progressRaises info.duration env.outTimes
        && decide (env.encoder.returncode = 0)
        && verify_conversion env.encoder.tempSize
        && env.moveSucceeds
        && !decide (info.size = 0)

/-- Handler constructed with no CLI options beyond the root. -/
def stNoTargets : HandlerState :=
  HandlerState.init "/watch" none "medium" 23 "high" none none none

/-- Handler constructed with `--resolution 720p` and nothing else. -/
def stTarget720p : HandlerState :=
  HandlerState.init "/watch" (some "720p") "medium" 23 "high" none none none

/-- A probe result exposing one video stream of the given geometry, duration
(seconds) and size (bytes). -/
def probeVideo (w h : Int) (dur sz : ℚ) : ProbeResult :=
  { returncode := 0
    parsed := some { streams := [⟨"video", w, h⟩], duration := dur, size := sz } }

/-- A fully successful attempt environment: 50 MiB 720p source, encoder exit
0 with a 1000-byte temporary output, publish succeeds. -/
def envSuccess : AttemptEnv :=
  { probe := probeVideo 1280 720 60 (50 * 1048576)
    encoder := ⟨0, some 1000⟩, outTimes := [1, 2], moveSucceeds := true }

/-- The same successful encode/publish on a 4000-byte source file, whose
probed size in MB rounds to zero. -/
def envTinySource : AttemptEnv :=
  { probe := probeVideo 1280 720 60 4000
    encoder := ⟨0, some 1000⟩, outTimes := [1, 2], moveSucceeds := true }

/-- An attempt environment with a 3840x2160 source and a failing encoder. -/
def envUhd : AttemptEnv :=
  { probe := probeVideo 3840 2160 60 (50 * 1048576)
    encoder := ⟨1, none⟩, outTimes := [], moveSucceeds := true }

/-- An attempt environment with a 640x480 source and a failing encoder. -/
def envSd : AttemptEnv :=
  { probe := probeVideo 640 480 60 (50 * 1048576)
    encoder := ⟨1, none⟩, outTimes := [], moveSucceeds := true }

/-- An attempt environment whose probe subprocess exits non-zero. -/
def envProbeFail : AttemptEnv :=
  { probe := { returncode := 1, parsed := none }
    encoder := ⟨0, some 1000⟩, outTimes := [], moveSucceeds := true }

/-- An attempt environment whose encoder exits non-zero after writing a
temporary file. -/
def envEncodeFail : AttemptEnv :=
  { probe := probeVideo 1280 720 60 (50 * 1048576)
    encoder := ⟨1, some 500⟩, outTimes := [1], moveSucceeds := true }

/-- The probe info produced for the 640x480 fixtures. -/
def infoSd : VideoInfo := ⟨640, 480, "640x480", 60, 50⟩

/-- The probe info produced for the 3840x2160 fixture. -/
def infoUhd : VideoInfo := ⟨3840, 2160, "3840x2160", 60, 50⟩

/-- The probe info produced for the 50 MiB 1280x720 fixtures. -/
def infoHd : VideoInfo := ⟨1280, 720, "1280x720", 60, 50⟩

/-- The probe info produced for the 4000-byte 1280x720 fixture: its size in
MB rounds to zero. -/
def infoTiny : VideoInfo := ⟨1280, 720, "1280x720", 60, 0⟩

/-! ## Branch characterizations of one conversion attempt -/

theorem convert_of_probeFail {st : HandlerState} {env : AttemptEnv}
    (h : get_video_info env.probe = none) :
    convert_mkv_to_mp4 st env =
      { state := st, sourceExists := true, tempExists := false, outputExists := false
        outputSize := none, cmd := none, outcome := .probeFail } := by
  simp [convert_mkv_to_mp4, h]

theorem convert_of_parseErr {st : HandlerState} {env : AttemptEnv} {info : VideoInfo} {e : Unit}
    (h1 : get_video_info env.probe = some info)
    (h2 : parse_resolution st.target_resolution = .error e) :
    convert_mkv_to_mp4 st env =
      { state := st, sourceExists := true, tempExists := false, outputExists := false
        outputSize := none, cmd := none, outcome := .exceptionCaught } := by
  simp [convert_mkv_to_mp4, h1, h2]

theorem convert_of_progressRaises {st : HandlerState} {env : AttemptEnv} {info : VideoInfo}
    {tdims : Option (Int × Int)}
    (h1 : get_video_info env.probe = some info)
    (h2 : parse_resolution st.target_resolution = .ok tdims)
    (h3 : progressRaises info.duration env.outTimes = true) :
    convert_mkv_to_mp4 st env =
      { state := planState st info tdims, sourceExists := true, tempExists := false
        outputExists := false, outputSize := none, cmd := some (buildCmd st info tdims)
        outcome := .exceptionCaught } := by
  simp [convert_mkv_to_mp4, h1, h2, h3]

theorem convert_of_verifyFail {st : HandlerState} {env : AttemptEnv} {info : VideoInfo}
    {tdims : Option (Int × Int)}
    (h1 : get_video_info env.probe = some info)
    (h2 : parse_resolution st.target_resolution = .ok tdims)
    (h3 : progressRaises info.duration env.outTimes = false)
    (h4 : (decide (env.encoder.returncode = 0) && verify_conversion env.encoder.tempSize) = false) :
    convert_mkv_to_mp4 st env =
      { state := planState st info tdims, sourceExists := true, tempExists := false
        outputExists := false, outputSize := none, cmd := some (buildCmd st info tdims)
        outcome := .verifyFail } := by
  simp only [convert_mkv_to_mp4, h1, h2, h3]
  simp [h4]

theorem convert_of_moveFail {st : HandlerState} {env : AttemptEnv} {info : VideoInfo}
    {tdims : Option (Int × Int)}
    (h1 : get_video_info env.probe = some info)
    (h2 : parse_resolution st.target_resolution = .ok tdims)
    (h3 : progressRaises info.duration env.outTimes = false)
    (h4 : env.encoder.returncode = 0)
    (h5 : verify_conversion env.encoder.tempSize = true)
    (h6 : env.moveSucceeds = false) :
    convert_mkv_to_mp4 st env =
      { state := planState st info tdims, sourceExists := true, tempExists := false
        outputExists := false, outputSize := none, cmd := some (buildCmd st info tdims)
        outcome := .exceptionCaught } := by
  simp [convert_mkv_to_mp4, h1, h2, h3, h4, h5, h6]

theorem convert_of_sizeZero {st : HandlerState} {env : AttemptEnv} {info : VideoInfo}
    {tdims : Option (Int × Int)}
    (h1 : get_video_info env.probe = some info)
    (h2 : parse_resolution st.target_resolution = .ok tdims)
    (h3 : progressRaises info.duration env.outTimes = false)
    (h4 : env.encoder.returncode = 0)
    (h5 : verify_conversion env.encoder.tempSize = true)
    (h6 : env.moveSucceeds = true)
    (h7 : info.size = 0) :
    convert_mkv_to_mp4 st env =
      { state := planState st info tdims, sourceExists := true, tempExists := false
        outputExists := true, outputSize := env.encoder.tempSize
        cmd := some (buildCmd st info tdims), outcome := .exceptionCaught } := by
  simp [convert_mkv_to_mp4, h1, h2, h3, h4, h5, h6, h7]

theorem convert_of_success {st : HandlerState} {env : AttemptEnv} {info : VideoInfo}
    {tdims : Option (Int × Int)}
    (h1 : get_video_info env.probe = some info)
    (h2 : parse_resolution st.target_resolution = .ok tdims)
    (h3 : progressRaises info.duration env.outTimes = false)
    (h4 : env.encoder.returncode = 0)
    (h5 : verify_conversion env.encoder.tempSize = true)
    (h6 : env.moveSucceeds = true)
    (h7 : ¬ info.size = 0) :
    convert_mkv_to_mp4 st env =
      { state := planState st info tdims, sourceExists := false, tempExists := false
        outputExists := true, outputSize := env.encoder.tempSize
        cmd := some (buildCmd st info tdims), outcome := .completed } := by
  simp [convert_mkv_to_mp4, h1, h2, h3, h4, h5, h6, h7]

/-! ## Helper evaluation lemmas -/

theorem progressRaises_eq (d : ℚ) (l : List ℚ) :
    progressRaises d l = (!l.isEmpty && decide (d = 0)) := by
  induction l with
  | nil => simp [progressRaises]
  | cons x xs ih =>
    simp [progressRaises, FFmpegProgress.update] at ih ⊢
    by_cases h : d = 0 <;> simp [h] at ih ⊢

theorem truthy_get_recommended_bitrate (w h : Int) :
    truthy (some (get_recommended_bitrate w h)) = true := by
  simp only [get_recommended_bitrate]
  split <;> (first | decide | split <;> (first | decide | split <;> decide))

theorem get_video_info_probeVideo (w h : Int) (dur sz : ℚ) :
    get_video_info (probeVideo w h dur sz) =
      some { width := w, height := h, resolution := toString w ++ "x" ++ toString h
             duration := dur, size := round2 (sz / (1024 * 1024)) } := by
  simp [get_video_info, probeVideo, List.find?]

theorem round2_tiny : round2 ((4000 : ℚ) / (1024 * 1024)) = 0 := by
  norm_num [round2, roundHalfEven]

theorem round2_fifty : round2 ((50 * 1048576 : ℚ) / (1024 * 1024)) = 50 := by
  norm_num [round2, roundHalfEven]

theorem gvi_envSd : get_video_info envSd.probe = some infoSd := by
  have h := get_video_info_probeVideo 640 480 60 (50 * 1048576)
  rw [round2_fifty] at h
  exact h

theorem gvi_envUhd : get_video_info envUhd.probe = some infoUhd := by
  have h := get_video_info_probeVideo 3840 2160 60 (50 * 1048576)
  rw [round2_fifty] at h
  exact h

theorem gvi_envHd : get_video_info envSuccess.probe = some infoHd := by
  have h := get_video_info_probeVideo 1280 720 60 (50 * 1048576)
  rw [round2_fifty] at h
  exact h

theorem gvi_envTiny : get_video_info envTinySource.probe = some infoTiny := by
  have h := get_video_info_probeVideo 1280 720 60 4000
  rw [round2_tiny] at h
  exact h

theorem parse_stNoTargets :
    parse_resolution stNoTargets.target_resolution = Except.ok none := by decide

theorem parse_stTarget720p :
    parse_resolution stTarget720p.target_resolution = Except.ok (some (1280, 720)) := by decide

theorem progressRaises_60_12 : progressRaises 60 [1, 2] = false := by
  rw [progressRaises_eq]
  norm_num

theorem progressRaises_60_1 : progressRaises 60 [1] = false := by
  rw [progressRaises_eq]
  norm_num

theorem progressRaises_60_nil : progressRaises 60 [] = false := by
  rw [progressRaises_eq]
  norm_num

theorem convert_cmd_state {st : HandlerState} {env : AttemptEnv} {info : VideoInfo}
    {tdims : Option (Int × Int)}
    (h1 : get_video_info env.probe = some info)
    (h2 : parse_resolution st.target_resolution = .ok tdims) :
    (convert_mkv_to_mp4 st env).cmd = some (buildCmd st info tdims)
    ∧ (convert_mkv_to_mp4 st env).state = planState st info tdims := by
  cases hpr : progressRaises info.duration env.outTimes with
  | true => rw [convert_of_progressRaises h1 h2 hpr]; exact ⟨rfl, rfl⟩
  | false =>
    cases hguard : (decide (env.encoder.returncode = 0) && verify_conversion env.encoder.tempSize) with
    | false => rw [convert_of_verifyFail h1 h2 hpr hguard]; exact ⟨rfl, rfl⟩
    | true =>
      have hguard' := hguard
      simp only [Bool.and_eq_true, decide_eq_true_eq] at hguard'
      obtain ⟨hrc', hv⟩ := hguard'
      cases hm : env.moveSucceeds with
      | false => rw [convert_of_moveFail h1 h2 hpr hrc' hv hm]; exact ⟨rfl, rfl⟩
      | true =>
        by_cases hs : info.size = 0
        · rw [convert_of_sizeZero h1 h2 hpr hrc' hv hm hs]; exact ⟨rfl, rfl⟩
        · rw [convert_of_success h1 h2 hpr hrc' hv hm hs]; exact ⟨rfl, rfl⟩

theorem truthy_planMaxrate (st : HandlerState) (info : VideoInfo)
    (tdims : Option (Int × Int)) :
    truthy (planMaxrate st info tdims) = true := by
  cases ht : truthy st.maxrate with
  | true => simp [planMaxrate, ht]
  | false => simp [planMaxrate, ht, truthy_get_recommended_bitrate]

theorem buildCmd_copyVideo_false (st : HandlerState) (info : VideoInfo)
    (tdims : Option (Int × Int)) :
    (buildCmd st info tdims).copyVideo = false := by
  simp [buildCmd, truthy_planMaxrate]

/-! ## Claim theorems -/

/-- C2: a probe failure (non-zero ffprobe exit, unparseable output, or no
video stream) ends the attempt in the probe-failure outcome with the source
file still present and neither a temporary nor an output file created. -/
theorem c2_probe_failure_leaves_source_untouched (st : HandlerState) (env : AttemptEnv)
    (h : env.probe.returncode ≠ 0 ∨ env.probe.parsed = none
      ∨ ∃ d, env.probe.parsed = some d
          ∧ d.streams.find? (fun s => s.codec_type == "video") = none) :
    (convert_mkv_to_mp4 st env).outcome = .probeFail
    ∧ (convert_mkv_to_mp4 st env).sourceExists = true
    ∧ (convert_mkv_to_mp4 st env).tempExists = false
    ∧ (convert_mkv_to_mp4 st env).outputExists = false := by
  have hg : get_video_info env.probe = none := by
    rcases h with h | h | ⟨d, hd, hf⟩
    · simp [get_video_info, h]
    · simp [get_video_info, h]
    · simp [get_video_info, hd, hf]
  rw [convert_of_probeFail hg]
  exact ⟨rfl, rfl, rfl, rfl⟩

theorem c2_witness :
    (convert_mkv_to_mp4 stNoTargets envProbeFail).outcome = .probeFail
    ∧ (convert_mkv_to_mp4 stNoTargets envProbeFail).sourceExists = true
    ∧ (convert_mkv_to_mp4 stNoTargets envProbeFail).tempExists = false
    ∧ (convert_mkv_to_mp4 stNoTargets envProbeFail).outputExists = false :=
  c2_probe_failure_leaves_source_untouched stNoTargets envProbeFail (Or.inl (by decide))

/-- C3: when the encoder exits non-zero, or the temporary output is missing
or empty, the attempt ends with no temporary file on disk and the source file
still present. -/
theorem c3_encode_failure_cleans_temp_keeps_source (st : HandlerState) (env : AttemptEnv)
    (h : env.encoder.returncode ≠ 0 ∨ env.encoder.tempSize = none
      ∨ env.encoder.tempSize = some 0) :
    (convert_mkv_to_mp4 st env).tempExists = false
    ∧ (convert_mkv_to_mp4 st env).sourceExists = true := by
  have hguard : (decide (env.encoder.returncode = 0)
      && verify_conversion env.encoder.tempSize) = false := by
    rcases h with h | h | h
    · simp [h]
    · simp [h, verify_conversion]
    · simp [h, verify_conversion]
  cases hg : get_video_info env.probe with
  | none => rw [convert_of_probeFail hg]; exact ⟨rfl, rfl⟩
  | some info =>
    cases hp : parse_resolution st.target_resolution with
    | error e => rw [convert_of_parseErr hg hp]; exact ⟨rfl, rfl⟩
    | ok tdims =>
      cases hpr : progressRaises info.duration env.outTimes with
      | false => rw [convert_of_verifyFail hg hp hpr hguard]; exact ⟨rfl, rfl⟩
      | true => rw [convert_of_progressRaises hg hp hpr]; exact ⟨rfl, rfl⟩

theorem c3_witness :
    (convert_mkv_to_mp4 stNoTargets envEncodeFail).tempExists = false
    ∧ (convert_mkv_to_mp4 stNoTargets envEncodeFail).sourceExists = true :=
  c3_encode_failure_cleans_temp_keeps_source stNoTargets envEncodeFail (Or.inl (by decide))

/-- C6 (code bug): a handler constructed with an explicit max-bitrate string
and no buffer size gets a buffer size of Python string repetition
(`maxrate * 2` on a `str`), i.e. `"4M4M"`, not twice the bitrate `"8M"` as
the claim and the code comment on line 42 state. -/
theorem c6_bufsize_string_repetition_bug :
    (HandlerState.init "/watch" none "medium" 23 "high" none (some "4M") none).bufsize
      = some (pyStrMul2 "4M")
    ∧ pyStrMul2 "4M" = "4M4M"
    ∧ ("4M4M" : String) ≠ "8M" := by
  decide

/-- C7: given a parseable (or absent) resolution specifier, downscaling is
selected iff a target pair was parsed and the source height strictly exceeds
the target height, and whenever downscaling is active the effective target
height is strictly below (so at most) the source height: no upscale. -/
theorem c7_downscale_iff_target_below_source (tr : Option String) (info : VideoInfo)
    (tdims : Option (Int × Int))
    (h : parse_resolution tr = .ok tdims) :
    (needsDownscale tdims info.height = true
        ↔ ∃ tw th, tdims = some (tw, th) ∧ th < info.height)
    ∧ (needsDownscale tdims info.height = true →
        (effectiveDims tdims info).2 ≤ info.height) := by
  constructor
  · cases tdims with
    | none => simp [needsDownscale]
    | some p =>
      obtain ⟨tw, th⟩ := p
      simp [needsDownscale]
      constructor
      · intro hh
        exact ⟨tw, th, ⟨rfl, rfl⟩, hh⟩
      · rintro ⟨a, b, ⟨rfl, rfl⟩, hlt⟩
        exact hlt
  · intro hnd
    cases tdims with
    | none => simp [needsDownscale] at hnd
    | some p =>
      obtain ⟨tw, th⟩ := p
      simp [needsDownscale] at hnd
      simp [effectiveDims, hnd]
      omega

theorem c7_witness :
    (needsDownscale (some (1280, 720)) infoUhd.height = true
        ↔ ∃ tw th, (some (1280, 720) : Option (Int × Int)) = some (tw, th)
            ∧ th < infoUhd.height)
    ∧ (needsDownscale (some (1280, 720)) infoUhd.height = true →
        (effectiveDims (some (1280, 720)) infoUhd).2 ≤ infoUhd.height) :=
  c7_downscale_iff_target_below_source (some "720p") infoUhd (some (1280, 720))
    (by decide)

/-- C8 counterexample: with a zero total duration, a call to update is not a
suppressed no-op; it raises the division-by-zero error instead of publishing
nothing and returning. -/
theorem c8_zero_duration_counterexample :
    FFmpegProgress.update ⟨0⟩ 1 = Except.error ()
    ∧ FFmpegProgress.update ⟨0⟩ 1 ≠ Except.ok 0 := by
  constructor
  · simp [FFmpegProgress.update]
  · simp [FFmpegProgress.update]

/-- C8 amended: a tracker constructed with total duration zero has no guard;
every update call raises the division-by-zero error (contained only by the
orchestrator catch-all). -/
theorem c8_zero_duration_raises (t : ℚ) :
    FFmpegProgress.update ⟨0⟩ t = Except.error () := by
  simp [FFmpegProgress.update]

theorem c8_zero_duration_raises_witness :
    FFmpegProgress.update ⟨0⟩ 2 = Except.error () :=
  c8_zero_duration_raises 2

/-- C9 counterexample: the published percentage is not clamped; with duration
10 and reported time 20 the update publishes 200, which exceeds 100. -/
theorem c9_percentage_bound_counterexample :
    FFmpegProgress.update ⟨10⟩ 20 = Except.ok 200 ∧ ¬ ((200 : ℚ) ≤ 100) := by
  constructor
  · simp [FFmpegProgress.update]
    norm_num
  · norm_num

/-- C9 amended: with positive duration and non-negative time the published
percentage is the unclamped value time/duration*100: always non-negative,
and at most 100 exactly when the time does not exceed the duration. -/
theorem c9_percentage_formula (d t : ℚ) (hd : 0 < d) (ht : 0 ≤ t) :
    ∃ p, FFmpegProgress.update ⟨d⟩ t = Except.ok p
      ∧ 0 ≤ p ∧ (p ≤ 100 ↔ t ≤ d) := by
  refine ⟨t / d * 100, ?_, ?_, ?_⟩
  · simp [FFmpegProgress.update, ne_of_gt hd]
  · positivity
  · have hiff : t / d * 100 ≤ 100 ↔ t / d ≤ 1 := by
      constructor
      · intro hh; linarith
      · intro hh; linarith
    rw [hiff, div_le_one hd]

theorem c9_percentage_formula_witness :
    ∃ p, FFmpegProgress.update ⟨10⟩ 5 = Except.ok p
      ∧ 0 ≤ p ∧ (p ≤ 100 ↔ (5 : ℚ) ≤ 10) :=
  c9_percentage_formula 10 5 (by norm_num) (by norm_num)

/-- C10: live creation events match the lowercased path against the literal
lowercase extension, so any case variant of the extension is accepted, while
the startup scan glob matches only names ending in the literal lowercase
extension; in particular "MOVIE.MKV" is accepted live but never enqueued by
the scan. -/
theorem c10_extension_matching_asymmetry :
    on_created_accepts false "MOVIE.MKV" = true
    ∧ scan_glob_matches "MOVIE.MKV" = false
    ∧ (∀ p : String, pyEndsWith (pyLower p) ".mkv" = true → on_created_accepts false p = true)
    ∧ (∀ p : String, scan_glob_matches p = true → pyEndsWith p ".mkv" = true) := by
  refine ⟨by decide, by decide, ?_, ?_⟩
  · intro p h
    simp [on_created_accepts, h]
  · intro p h
    exact h

theorem c10_witness :
    on_created_accepts false "Video.Mkv" = true ∧ pyEndsWith "clip.mkv" ".mkv" = true :=
  ⟨c10_extension_matching_asymmetry.2.2.1 "Video.Mkv" (by decide),
   c10_extension_matching_asymmetry.2.2.2 "clip.mkv" (by decide)⟩

/-- C1 counterexample: a 4000-byte source (probed size rounds to 0.00 MB)
encodes and publishes successfully — exit code 0, verified temporary file,
successful move — yet the source file survives, because the size-reduction
report divides by the zero size after the publish. -/
theorem c1_deletion_claim_counterexample :
    envTinySource.encoder.returncode = 0
    ∧ verify_conversion envTinySource.encoder.tempSize = true
    ∧ envTinySource.moveSucceeds = true
    ∧ (convert_mkv_to_mp4 stNoTargets envTinySource).outputExists = true
    ∧ (convert_mkv_to_mp4 stNoTargets envTinySource).sourceExists = true := by
  refine ⟨rfl, by decide, rfl, ?_, ?_⟩ <;>
    rw [convert_of_sizeZero gvi_envTiny parse_stNoTargets progressRaises_60_12 rfl
      (by decide) rfl rfl]

/-- C1 amended: the source file is deleted iff the attempt passed every stage
(probe parsed, specifier parsed, no zero-duration progress division, encoder
exit 0, non-empty temporary file, successful move) and additionally the
post-publish size-reduction report did not divide by a zero probed size;
on that path the final output exists, is non-empty, and the temporary file is
gone.  On every other path the source survives. -/
theorem c1_source_deletion_characterization (st : HandlerState) (env : AttemptEnv) :
    ((convert_mkv_to_mp4 st env).sourceExists = false ↔ publishAndDeleteCond st env = true)
    ∧ (publishAndDeleteCond st env = true →
        (convert_mkv_to_mp4 st env).outputExists = true
        ∧ (convert_mkv_to_mp4 st env).tempExists = false
        ∧ verify_conversion (convert_mkv_to_mp4 st env).outputSize = true) := by
  cases hg : get_video_info env.probe with
  | none =>
    rw [convert_of_probeFail hg]
    simp [publishAndDeleteCond, hg]
  | some info =>
    cases hp : parse_resolution st.target_resolution with
    | error e =>
      rw [convert_of_parseErr hg hp]
      simp [publishAndDeleteCond, hg, hp]
    | ok tdims =>
      have hcnd : publishAndDeleteCond st env =
          (!progressRaises info.duration env.outTimes
            && decide (env.encoder.returncode = 0)
            && verify_conversion env.encoder.tempSize
            && env.moveSucceeds
            && !decide (info.size = 0)) := by
        simp [publishAndDeleteCond, hg, hp]
      cases hpr : progressRaises info.duration env.outTimes with
      | true =>
        rw [convert_of_progressRaises hg hp hpr]
        simp [hcnd, hpr]
      | false =>
        cases hrc : decide (env.encoder.returncode = 0) with
        | false =>
          rw [convert_of_verifyFail hg hp hpr (by simp [hrc])]
          simp [hcnd, hpr, hrc]
        | true =>
          have hrc' : env.encoder.returncode = 0 := of_decide_eq_true hrc
          cases hv : verify_conversion env.encoder.tempSize with
          | false =>
            rw [convert_of_verifyFail hg hp hpr (by simp [hv])]
            simp [hcnd, hpr, hrc, hv]
          | true =>
            cases hm : env.moveSucceeds with
            | false =>
              rw [convert_of_moveFail hg hp hpr hrc' hv hm]
              simp [hcnd, hpr, hrc, hv, hm]
            | true =>
              by_cases hs : info.size = 0
              · rw [convert_of_sizeZero hg hp hpr hrc' hv hm hs]
                simp [hcnd, hpr, hrc, hv, hm, hs]
              · rw [convert_of_success hg hp hpr hrc' hv hm hs]
                simp [hcnd, hpr, hrc, hv, hm, hs]

theorem c1_source_deletion_characterization_witness :
    (convert_mkv_to_mp4 stNoTargets envSuccess).sourceExists = false
    ∧ (convert_mkv_to_mp4 stNoTargets envSuccess).outputExists = true := by
  have hcond : publishAndDeleteCond stNoTargets envSuccess = true := by
    simp only [publishAndDeleteCond, gvi_envHd, parse_stNoTargets]
    simp [progressRaises_eq, verify_conversion, infoHd, envSuccess]
  exact ⟨(c1_source_deletion_characterization stNoTargets envSuccess).1.mpr hcond,
    ((c1_source_deletion_characterization stNoTargets envSuccess).2 hcond).1⟩


/-- C4 counterexample: a run whose first attempt (no explicit max-bitrate)
sees a 2160p source stores the derived "8M" in the handler; the next attempt,
on a 480p source, uses that stale "8M" instead of the table value "1.5M" for
its own effective height. -/
theorem c4_stale_bitrate_counterexample :
    truthy stNoTargets.maxrate = false
    ∧ ((convert_mkv_to_mp4 (convert_mkv_to_mp4 stNoTargets envUhd).state envSd).cmd.map
        FfmpegCmd.maxrate) = some (some "8M")
    ∧ get_recommended_bitrate 640 480 = "1.5M"
    ∧ ("8M" : String) ≠ "1.5M" := by
  refine ⟨by decide, ?_, by decide, by decide⟩
  have hp2 : parse_resolution (planState stNoTargets infoUhd none).target_resolution
      = Except.ok none := by decide
  have h3b : progressRaises infoSd.duration envSd.outTimes = false := by
    simp [infoSd, envSd, progressRaises_eq]
  have h4b : (decide (envSd.encoder.returncode = 0)
      && verify_conversion envSd.encoder.tempSize) = false := by decide
  rw [convert_of_verifyFail gvi_envUhd parse_stNoTargets
    (by simp [infoUhd, envUhd, progressRaises_eq]) (by decide)]
  dsimp only
  rw [convert_of_verifyFail gvi_envSd hp2 h3b h4b]
  decide

/-- C4 amended: within one attempt whose probe and specifier parse succeed,
the command's max-bitrate is the table value for that attempt's effective
dimensions when no max-bitrate was in effect at the start of the attempt
(and the derived value is stored in the handler state); when one was already
in effect — supplied explicitly or stored by an earlier attempt — it is
reused unchanged. -/
theorem c4_first_attempt_derivation (st : HandlerState) (env : AttemptEnv)
    (info : VideoInfo) (tdims : Option (Int × Int))
    (h1 : get_video_info env.probe = some info)
    (h2 : parse_resolution st.target_resolution = .ok tdims) :
    (convert_mkv_to_mp4 st env).cmd = some (buildCmd st info tdims)
    ∧ (truthy st.maxrate = false →
        (buildCmd st info tdims).maxrate
          = some (get_recommended_bitrate (effectiveDims tdims info).1
              (effectiveDims tdims info).2)
        ∧ (convert_mkv_to_mp4 st env).state.maxrate = (buildCmd st info tdims).maxrate)
    ∧ (truthy st.maxrate = true →
        (buildCmd st info tdims).maxrate = st.maxrate
        ∧ (convert_mkv_to_mp4 st env).state.maxrate = st.maxrate) := by
  obtain ⟨hcmd, hstate⟩ := convert_cmd_state h1 h2
  have hbm : (buildCmd st info tdims).maxrate = planMaxrate st info tdims := by
    simp [buildCmd, truthy_planMaxrate]
  refine ⟨hcmd, ?_, ?_⟩
  · intro hmr
    have hpm : planMaxrate st info tdims
        = some (get_recommended_bitrate (effectiveDims tdims info).1
            (effectiveDims tdims info).2) := by
      simp [planMaxrate, hmr]
    constructor
    · rw [hbm, hpm]
    · rw [hstate, hbm]
      simp [planState]
  · intro hmr
    have hpm : planMaxrate st info tdims = st.maxrate := by simp [planMaxrate, hmr]
    constructor
    · rw [hbm, hpm]
    · rw [hstate]
      simp [planState, hpm]

theorem c4_first_attempt_derivation_witness :
    (convert_mkv_to_mp4 stNoTargets envSd).cmd = some (buildCmd stNoTargets infoSd none)
    ∧ (truthy stNoTargets.maxrate = false →
        (buildCmd stNoTargets infoSd none).maxrate
          = some (get_recommended_bitrate (effectiveDims none infoSd).1
              (effectiveDims none infoSd).2)
        ∧ (convert_mkv_to_mp4 stNoTargets envSd).state.maxrate
            = (buildCmd stNoTargets infoSd none).maxrate)
    ∧ (truthy stNoTargets.maxrate = true →
        (buildCmd stNoTargets infoSd none).maxrate = stNoTargets.maxrate
        ∧ (convert_mkv_to_mp4 stNoTargets envSd).state.maxrate = stNoTargets.maxrate) :=
  c4_first_attempt_derivation stNoTargets envSd infoSd none gvi_envSd parse_stNoTargets

/-- C5 counterexample: 640x480 source, target "720p" (no downscale), no
explicit max-bitrate — the claim predicts stream copy, but the constructed
command re-encodes (a bitrate was derived, making the re-encode condition
true). -/
theorem c5_stream_copy_counterexample :
    needsDownscale (some (1280, 720)) infoSd.height = false
    ∧ truthy stTarget720p.maxrate = false
    ∧ ((convert_mkv_to_mp4 stTarget720p envSd).cmd.map FfmpegCmd.copyVideo) = some false := by
  refine ⟨by decide, by decide, ?_⟩
  obtain ⟨hcmd, _⟩ := convert_cmd_state gvi_envSd parse_stTarget720p
  rw [hcmd]
  simp [buildCmd_copyVideo_false]

/-- C5 amended: every command an attempt actually constructs re-encodes the
video stream; the `-c:v copy` branch is unreachable, because a max-bitrate is
always in effect once the derivation step has run. -/
theorem c5_reencode_always (st : HandlerState) (env : AttemptEnv) (c : FfmpegCmd)
    (h : (convert_mkv_to_mp4 st env).cmd = some c) :
    c.copyVideo = false := by
  cases hg : get_video_info env.probe with
  | none => rw [convert_of_probeFail hg] at h; cases h
  | some info =>
    cases hp : parse_resolution st.target_resolution with
    | error e => rw [convert_of_parseErr hg hp] at h; cases h
    | ok tdims =>
      obtain ⟨hcmd, _⟩ := convert_cmd_state hg hp
      rw [hcmd] at h
      exact (Option.some.inj h) ▸ buildCmd_copyVideo_false st info tdims

theorem c5_reencode_always_witness :
    (buildCmd stTarget720p infoSd (some (1280, 720))).copyVideo = false :=
  c5_reencode_always stTarget720p envSd (buildCmd stTarget720p infoSd (some (1280, 720)))
    (convert_cmd_state gvi_envSd parse_stTarget720p).1


end MkvToMp4
